import Mathlib

/-!
Verification development for a three-stage contractor-scraping pipeline
(`gaf_scraper.py`, `extract_about_sections.py`, `analyze_contractors_with_gpt.py`).

The Python sources are shallowly embedded: DOM elements are modelled by the
data the code reads from them (text, attributes), browser navigation and the
external analysis service are modelled by oracles describing their outcomes,
and the pandas row-store is modelled as a list of records.  Every definition
follows the corresponding source function; theorems settle the frozen claims.
-/

/-! ## Python string primitives

`str.strip()`, `str.lower()` and `str.replace()` are modelled directly over
character lists so that every definition evaluates inside the kernel. -/

/-- Python `str.strip()`: drop whitespace from both ends. -/
def pyStrip (s : String) : String :=
  ⟨((s.data.dropWhile Char.isWhitespace).reverse.dropWhile Char.isWhitespace).reverse⟩

/-- Python `str.lower()`. -/
def pyLower (s : String) : String :=
  ⟨s.data.map Char.toLower⟩

/-- Does the first character list start with the second? -/
def charsStartWith : List Char → List Char → Bool
  | _, [] => true
  | [], _ :: _ => false
  | a :: as, b :: bs => a == b && charsStartWith as bs

/-- Does the first character list contain the second as a contiguous block? -/
def charsHasSub : List Char → List Char → Bool
  | [], sub => sub.isEmpty
  | a :: t, sub => charsStartWith (a :: t) sub || charsHasSub t sub

/-- Python's `sub in s` test on strings. -/
def strContains (s sub : String) : Bool :=
  charsHasSub s.data sub.data

/-- Replace every left-to-right occurrence of `pat` by `rep`; the fuel is an
upper bound on the number of characters consumed (each step consumes at least
one, so `l.length` suffices). -/
def charsReplaceGo (pat rep : List Char) : Nat → List Char → List Char
  | 0, l => l
  | _ + 1, [] => []
  | fuel + 1, a :: t =>
    if pat ≠ [] && charsStartWith (a :: t) pat then
      rep ++ charsReplaceGo pat rep fuel (List.drop (pat.length - 1) t)
    else
      a :: charsReplaceGo pat rep fuel t

/-- Python `s.replace(pat, rep)` for a non-empty pattern. -/
def pyReplace (s pat rep : String) : String :=
  ⟨charsReplaceGo pat.data rep.data s.data.length s.data⟩

/-! ## DOM element model and the safe accessors of gaf_scraper.py -/

/-- A DOM element as observed by the scraper: its `text` (where `none` models a
stale-element access that raises `StaleElementReferenceException`) and its
HTML attributes. -/
structure Element where
  text : Option String
  attrs : List (String × String)
deriving DecidableEq

/-- `safe_get_text` (gaf_scraper.py lines 29-33):
`return element.text.strip() if element.text else "N/A"` with stale/attribute
errors caught and mapped to `"N/A"`.  Note the Python truthiness test: only the
empty string is falsy, so whitespace-only text is stripped (to `""`), not
replaced by the sentinel. -/
def safe_get_text (e : Element) : String :=
  match e.text with
  | none => "N/A"
  | some t => if t = "" then "N/A" else pyStrip t

/-- `safe_get_attribute` (gaf_scraper.py lines 36-40):
`element.get_attribute(attribute) if element else "N/A"`.  A missing attribute
yields Python `None`, modelled by `none`; a falsy element yields `"N/A"`. -/
def safe_get_attribute (e : Option Element) (a : String) : Option String :=
  match e with
  | none => some "N/A"
  | some el => List.lookup a el.attrs

/-! ## Listing-item extraction (scrape_contractor_info, per-item body) -/

/-- The elements the per-item extraction code of `scrape_contractor_info`
(gaf_scraper.py lines 106-175) looks up inside one `li` listing item.
`none` for a single lookup models `NoSuchElementException`. -/
structure ListingItem where
  nameEl : Option Element
  linkEl : Option Element
  starsEl : Option Element
  certEls : List Element
  phonePrimary : Option Element
  phoneAlt : Option Element
deriving DecidableEq

/-- One record of the listing-extraction stage.  `page_link` is an
`Option String` because `get_attribute` can return Python `None`. -/
structure ContractorData where
  name : String
  page_link : Option String
  rating_stars : String
  certifications : String
  phone_number : String
deriving DecidableEq

/-- Certifications extraction (gaf_scraper.py lines 139-146):
collect cert elements, keep those whose `safe_get_text` is not `"N/A"`,
join with `", "`; an empty collection (before or after filtering) stays
`"N/A"`.  Note: empty-string texts are NOT filtered out. -/
def extract_certifications (certEls : List Element) : String :=
  if certEls.isEmpty then "N/A"
  else
    let certifications :=
      (certEls.filter (fun c => safe_get_text c != "N/A")).map safe_get_text
    if certifications.isEmpty then "N/A"
    else String.intercalate ", " certifications

/-- The per-item body of `scrape_contractor_info` (gaf_scraper.py lines
106-175).  Returns `none` when an exception escapes to the per-item
`except Exception` handler (raw `.text` access on a stale phone element),
in which case the record is dropped (`continue`). -/
def scrape_listing_item (item : ListingItem) : Option ContractorData :=
  let base : ContractorData :=
    { name := "N/A", page_link := some "N/A", rating_stars := "N/A",
      certifications := "N/A", phone_number := "N/A" }
  -- name and page link: both lookups sit in one try block, so if either
  -- raises NoSuchElementException neither field is assigned
  let d1 :=
    match item.nameEl, item.linkEl with
    | some ne, some le =>
        { base with name := safe_get_text ne,
                    page_link := safe_get_attribute (some le) "href" }
    | _, _ => base
  let d2 :=
    match item.starsEl with
    | some se => { d1 with rating_stars := safe_get_text se }
    | none => d1
  let d3 := { d2 with certifications := extract_certifications item.certEls }
  -- phone number: primary branch reads raw `.text` (no safe wrapper); a stale
  -- element there raises past the field-level handlers to the per-item one
  match item.phonePrimary with
  | some el =>
    match el.text with
    | none => none
    | some t =>
      let pt := if strContains t "Phone Number:"
                then pyStrip (pyReplace t "Phone Number:" "")
                else t
      some { d3 with phone_number := pt }
  | none =>
    match item.phoneAlt with
    | some el =>
      match el.text with
      | none => none
      | some t =>
        some { d3 with phone_number := pyStrip (pyReplace t "Phone Number:" "") }
    | none => some d3

/-! ## The GPT analysis stage (analyze_contractors_with_gpt.py) -/

/-- One row of the row-store consumed by the analysis stage.  `gpt_analysis`
is an `Option String`: `none` models a missing column / NaN cell (for which
`pd.isna` is true). -/
structure GptRow where
  name : String
  rating_stars : String
  certifications : String
  phone_number : String
  about_section : String
  gpt_analysis : Option String
deriving DecidableEq

/-- `df['gpt_analysis'] = 'N/A'` (analyze_contractors_with_gpt.py line 91):
the column is overwritten for every row before the loop starts. -/
def resetRow (r : GptRow) : GptRow :=
  { r with gpt_analysis := some "N/A" }

/-- Drop the `gpt_analysis` cell (used to state that the rest of a row is
what determines a run's outcome). -/
def eraseAnalysis (r : GptRow) : GptRow :=
  { r with gpt_analysis := none }

/-- The skip predicate (line 101):
`row.get('gpt_analysis') != 'N/A' and not pd.isna(row.get('gpt_analysis'))`. -/
def alreadyProcessed (r : GptRow) : Bool :=
  match r.gpt_analysis with
  | none => false
  | some v => v != "N/A"

/-- Observable outcome of one run of the analysis-stage loop: the final
dataframe, the persisted snapshots (tagged with the index of the record just
handled; the unconditional final save is tagged with the row count), and the
indices at which the per-record operation was invoked. -/
structure GptOut where
  df : List GptRow
  saves : List (Nat × List GptRow)
  calls : List Nat
deriving DecidableEq

/-- What one successful operation does to a row (line 113):
`df.at[idx, 'gpt_analysis'] = analysis`; a failed operation leaves it as is. -/
def stepRow (op : GptRow → Except String String) (r : GptRow) : GptRow :=
  match op r with
  | .ok v => { r with gpt_analysis := some v }
  | .error _ => r

/-- The loop of `process_contractors_with_gpt` (lines 94-127).  `done` is the
already-traversed prefix of the dataframe (mutations landed), `todo` the rest,
`idx` the current index, `n` the fixed row count.  The `operation` is the
per-record body abstracted as `Except` (an `error` models an exception
escaping to the per-record handler at lines 123-127, which saves the
dataframe and continues). -/
def gptGo (op : GptRow → Except String String) (n : Nat) :
    Nat → List GptRow → List GptRow → GptOut
  | _, done, [] => ⟨done, [], []⟩
  | idx, done, row :: rest =>
    if alreadyProcessed row then
      -- skip path: `continue` also skips the batch-save check
      gptGo op n (idx + 1) (done ++ [row]) rest
    else
      match op row with
      | .error _ =>
        -- `except` handler: save progress, continue
        let out := gptGo op n (idx + 1) (done ++ [row]) rest
        ⟨out.df, (idx, done ++ row :: rest) :: out.saves, idx :: out.calls⟩
      | .ok v =>
        let row2 := { row with gpt_analysis := some v }
        let out := gptGo op n (idx + 1) (done ++ [row2]) rest
        if (idx + 1) % 5 == 0 || idx == n - 1 then
          ⟨out.df, (idx, done ++ row2 :: rest) :: out.saves, idx :: out.calls⟩
        else
          ⟨out.df, out.saves, idx :: out.calls⟩

/-- `process_contractors_with_gpt` (lines 85-131): reset the `gpt_analysis`
column, run the loop, then save the final results unconditionally. -/
def process_contractors_with_gpt (op : GptRow → Except String String)
    (input : List GptRow) : GptOut :=
  let df0 := input.map resetRow
  let out := gptGo op df0.length 0 [] df0
  ⟨out.df, out.saves ++ [(df0.length, out.df)], out.calls⟩

/-! ## The GPT API call (analyze_contractor_with_gpt) -/

/-- Outcome of the HTTP POST to the analysis service: a response with a status
code and an optional parsed message content (`none` models a body from which
`response.json()['choices'][0]['message']['content']` cannot be read, so the
access raises), or a transport exception. -/
inductive ApiResult where
  | response (status : Nat) (content : Option String)
  | exception (msg : String)
deriving DecidableEq

/-- `analyze_contractor_with_gpt` (lines 60-73): the content on status 200,
the string `"Error in API call"` on any other status or any exception. -/
def analyze_contractor_with_gpt (r : ApiResult) : String :=
  match r with
  | .exception _ => "Error in API call"
  | .response status content =>
    if status = 200 then
      match content with
      | some analysis => analysis
      | none => "Error in API call"
    else "Error in API call"

/-! ## The about-section stage (extract_about_sections.py) -/

/-- One row of the row-store consumed by the about-extraction stage. -/
structure AboutRow where
  name : String
  page_link : String
  about_section : Option String
deriving DecidableEq

/-- `df['about_section'] = 'N/A'` (extract_about_sections.py line 185). -/
def aboutReset (r : AboutRow) : AboutRow :=
  { r with about_section := some "N/A" }

/-- The skip check (line 209): `page_link == 'N/A' or not page_link`. -/
def aboutSkip (r : AboutRow) : Bool :=
  r.page_link == "N/A" || r.page_link == ""

/-- Observable outcome of one run of the about-stage loop (same reading as
`GptOut`). -/
structure AboutOut where
  df : List AboutRow
  saves : List (Nat × List AboutRow)
  calls : List Nat
deriving DecidableEq

/-- The loop of `process_contractors_file` (lines 200-229).  Unlike the
analysis stage, the per-record `except` handler (lines 227-229) only logs and
continues: no defensive save. -/
def aboutGo (op : AboutRow → Except String String) (n : Nat) :
    Nat → List AboutRow → List AboutRow → AboutOut
  | _, done, [] => ⟨done, [], []⟩
  | idx, done, row :: rest =>
    if aboutSkip row then
      aboutGo op n (idx + 1) (done ++ [row]) rest
    else
      match op row with
      | .error _ =>
        let out := aboutGo op n (idx + 1) (done ++ [row]) rest
        ⟨out.df, out.saves, idx :: out.calls⟩
      | .ok v =>
        let row2 := { row with about_section := some v }
        let out := aboutGo op n (idx + 1) (done ++ [row2]) rest
        if (idx + 1) % 5 == 0 || idx == n - 1 then
          ⟨out.df, (idx, done ++ row2 :: rest) :: out.saves, idx :: out.calls⟩
        else
          ⟨out.df, out.saves, idx :: out.calls⟩

/-- `process_contractors_file` (lines 168-234): reset the `about_section`
column, run the loop, save the final results unconditionally. -/
def process_contractors_file (op : AboutRow → Except String String)
    (input : List AboutRow) : AboutOut :=
  let df0 := input.map aboutReset
  let out := aboutGo op df0.length 0 [] df0
  ⟨out.df, out.saves ++ [(df0.length, out.df)], out.calls⟩

/-! ## The navigator (safe_navigate, gaf_scraper.py lines 43-70) -/

/-- What one iteration of the retry loop can observe: `driver.get` plus the
readiness waits succeed and the listing container appears (`success`); the
page loads but the wait for `ul.contractor-listing__results` times out
(`listingTimeout`, the inner `except TimeoutException`); or a
`WebDriverException` escapes from the navigation itself (`transportError`,
the outer handler). -/
inductive NavAttempt where
  | success
  | listingTimeout
  | transportError
deriving DecidableEq

/-- `safe_navigate` over the per-attempt outcome list (`for attempt in
range(max_retries)` is the traversal of a list of length `max_retries`; the
head is the current attempt and `rest.isEmpty` means the attempt is the last
one, i.e. `attempt == max_retries - 1`).  Returns the success flag, the number
of navigation attempts issued, and the sequence of backoff sleeps taken. -/
def safe_navigate : List NavAttempt → Bool × Nat × List Nat
  | [] => (false, 0, [])
  | o :: rest =>
    match o with
    | .success => (true, 1, [])
    | .listingTimeout =>
      let r := safe_navigate rest
      (r.1, r.2.1 + 1, (if rest.isEmpty then [] else [5]) ++ r.2.2)
    | .transportError =>
      if rest.isEmpty then (false, 1, [])
      else
        let r := safe_navigate rest
        (r.1, r.2.1 + 1, 5 :: r.2.2)

/-! ## The pagination walker (scrape_contractor_info, lines 73-240) -/

/-- One listing page as the walker observes it: the contractor items found
(line 98), the result of the three fallback locators for the next-page button
(lines 180-200; `none` when all three miss), and whether the post-click waits
succeed (`clickOk = false` models the 30-second listing wait at lines 224-225
raising, which the outer handler at lines 236-238 turns into `break`). -/
structure Page where
  items : List ListingItem
  nextBtn : Option Element
  clickOk : Bool

/-- The `while current_page <= max_pages` loop of `scrape_contractor_info`.
`fuel` bounds the recursion; `none` means the fuel ran out before the loop
reached a terminal condition, so termination within a given fuel is the
loop-termination statement.  Accumulates extracted records and the number of
pages loaded (the initial `safe_navigate` load plus one per next-click). -/
def scrapeGo (pages : Nat → Page) (max_pages : Nat) :
    Nat → Nat → List ContractorData → Nat → Option (List ContractorData × Nat)
  | 0, _, _, _ => none
  | fuel + 1, cp, acc, loads =>
    if cp > max_pages then some (acc, loads)
    else
      let pg := pages cp
      if pg.items.isEmpty then some (acc, loads)
      else
        let acc2 := acc ++ pg.items.filterMap scrape_listing_item
        match pg.nextBtn with
        | none => some (acc2, loads)
        | some btn =>
          if safe_get_attribute (some btn) "disabled" ≠ some "true" ∧ cp < max_pages then
            if pg.clickOk then scrapeGo pages max_pages fuel (cp + 1) acc2 (loads + 1)
            else some (acc2, loads)
          else some (acc2, loads)

/-- `scrape_contractor_info`: bail out with no page loads when the initial
`safe_navigate` fails (lines 88-90), otherwise run the pagination loop from
page 1 with one page already loaded. -/
def scrape_contractor_info (pages : Nat → Page) (navOk : Bool)
    (max_pages : Nat) : Option (List ContractorData × Nat) :=
  if navOk then scrapeGo pages max_pages (max_pages + 1) 1 [] 1
  else some ([], 0)

/-! ## About-section extraction (extract_about_section, lines 55-112) -/

/-- A structural `section` of a detail page: its headings (`h1`..`h6`) and its
paragraph elements. -/
structure PageSection where
  headings : List Element
  paragraphs : List Element

/-- A contractor detail page as `extract_about_section` observes it:
whether `safe_navigate` succeeded, the element at the canonical xpath
`/html/body/main/section[4]/div/div/div/p` (`none` models
`NoSuchElementException`), all `section` elements, and all `p` elements. -/
structure DetailPage where
  navOk : Bool
  primaryAbout : Option Element
  sections : List PageSection
  allParagraphs : List Element

/-- The per-section test of the first fallback (lines 81-95): some heading
whose text contains `"about"` case-insensitively, and a non-empty paragraph
list; on success the joined paragraph text is returned. -/
def sectionAboutText (s : PageSection) : Option String :=
  if s.headings.any (fun h => strContains (pyLower (safe_get_text h)) "about")
      && !s.paragraphs.isEmpty then
    some (String.intercalate "\n" (s.paragraphs.map safe_get_text))
  else none

/-- The section scan: first section that yields about text wins. -/
def findAboutSection : List PageSection → Option String
  | [] => none
  | s :: rest =>
    match sectionAboutText s with
    | some t => some t
    | none => findAboutSection rest

/-- The second fallback (lines 97-104): first paragraph whose text is longer
than 100 characters and contains `"about"` or `"our company"`
case-insensitively. -/
def findLongParagraph : List Element → Option String
  | [] => none
  | p :: rest =>
    let t := safe_get_text p
    if t.length > 100
        && (strContains (pyLower t) "about" || strContains (pyLower t) "our company") then
      some t
    else findLongParagraph rest

/-- `extract_about_section` (lines 55-112): sentinel on navigation failure;
the canonical xpath text when that element exists; otherwise the section
scan, then the long-paragraph scan, then the sentinel. -/
def extract_about_section (pg : DetailPage) : String :=
  if pg.navOk then
    match pg.primaryAbout with
    | some el => safe_get_text el
    | none =>
      match findAboutSection pg.sections with
      | some t => t
      | none =>
        match findLongParagraph pg.allParagraphs with
        | some t => t
        | none => "N/A"
  else "N/A"

/-! ## Helper lemmas: the analysis-stage loop -/

lemma alreadyProcessed_resetRow (r : GptRow) :
    alreadyProcessed (resetRow r) = false := by
  simp [alreadyProcessed, resetRow]

lemma resetRow_eraseAnalysis (r : GptRow) :
    resetRow (eraseAnalysis r) = resetRow r := rfl

/-- On a run where no row passes the skip check, the final dataframe is the
pointwise application of `stepRow`. -/
lemma gptGo_df (op : GptRow → Except String String) (n : Nat) :
    ∀ (todo : List GptRow) (idx : Nat) (done : List GptRow),
      (∀ r ∈ todo, alreadyProcessed r = false) →
      (gptGo op n idx done todo).df = done ++ todo.map (stepRow op) := by
  intro todo
  induction todo with
  | nil => intro idx done _; simp [gptGo]
  | cons row rest ih =>
    intro idx done h
    have hrow : alreadyProcessed row = false := h row (by simp)
    have hrest : ∀ r ∈ rest, alreadyProcessed r = false :=
      fun r hr => h r (by simp [hr])
    have ihr := fun idx done => ih idx done hrest
    cases hop : op row with
    | error e =>
      simp [gptGo, hrow, hop, ihr, stepRow]
    | ok v =>
      by_cases hc : ((idx + 1) % 5 == 0 || idx == n - 1) = true <;>
        simp [gptGo, hrow, hop, hc, ihr, stepRow]

/-- On a run where no row passes the skip check, the operation is invoked at
every index. -/
lemma gptGo_calls (op : GptRow → Except String String) (n : Nat) :
    ∀ (todo : List GptRow) (idx : Nat) (done : List GptRow),
      (∀ r ∈ todo, alreadyProcessed r = false) →
      (gptGo op n idx done todo).calls = List.range' idx todo.length := by
  intro todo
  induction todo with
  | nil => intro idx done _; simp [gptGo]
  | cons row rest ih =>
    intro idx done h
    have hrow : alreadyProcessed row = false := h row (by simp)
    have hrest : ∀ r ∈ rest, alreadyProcessed r = false :=
      fun r hr => h r (by simp [hr])
    have ihr := fun idx done => ih idx done hrest
    cases hop : op row with
    | error e =>
      simp [gptGo, hrow, hop, ihr, List.range'_succ]
    | ok v =>
      by_cases hc : ((idx + 1) % 5 == 0 || idx == n - 1) = true <;>
        simp [gptGo, hrow, hop, hc, ihr, List.range'_succ]

/-- On a run where no row passes the skip check, a failing operation at
relative position `j` produces a persisted snapshot tagged `idx + j`
(the defensive checkpoint of the `except` handler). -/
lemma gptGo_save_of_error (op : GptRow → Except String String) (n : Nat) :
    ∀ (todo : List GptRow) (idx : Nat) (done : List GptRow),
      (∀ r ∈ todo, alreadyProcessed r = false) →
      ∀ (j : Nat) (hj : j < todo.length) (e : String),
        op todo[j] = .error e →
        ∃ snap, (idx + j, snap) ∈ (gptGo op n idx done todo).saves := by
  intro todo
  induction todo with
  | nil => intro idx done _ j hj; simp at hj
  | cons row rest ih =>
    intro idx done h j hj e hop
    have hrow : alreadyProcessed row = false := h row (by simp)
    have hrest : ∀ r ∈ rest, alreadyProcessed r = false :=
      fun r hr => h r (by simp [hr])
    cases j with
    | zero =>
      simp only [List.getElem_cons_zero] at hop
      refine ⟨done ++ row :: rest, ?_⟩
      simp [gptGo, hrow, hop]
    | succ k =>
      simp only [List.getElem_cons_succ] at hop
      have hk : k < rest.length := by simpa using hj
      cases hoprow : op row with
      | error e2 =>
        obtain ⟨snap, hsnap⟩ :=
          ih (idx + 1) (done ++ [row]) hrest k hk e hop
        refine ⟨snap, ?_⟩
        have : idx + 1 + k = idx + (k + 1) := by omega
        rw [this] at hsnap
        simp [gptGo, hrow, hoprow]
        exact hsnap
      | ok v =>
        obtain ⟨snap, hsnap⟩ :=
          ih (idx + 1) (done ++ [{ row with gpt_analysis := some v }]) hrest k hk e hop
        have heq : idx + 1 + k = idx + (k + 1) := by omega
        rw [heq] at hsnap
        refine ⟨snap, ?_⟩
        by_cases hc : ((idx + 1) % 5 == 0 || idx == n - 1) = true <;>
          simp [gptGo, hrow, hoprow, hc, hsnap]

/-- When the operation succeeds everywhere and no row passes the skip check,
the in-loop snapshots are exactly those at the batch boundaries and at the
last record. -/
lemma gptGo_saves_ok (f : GptRow → String) (n : Nat) :
    ∀ (todo : List GptRow) (idx : Nat) (done : List GptRow),
      (∀ r ∈ todo, alreadyProcessed r = false) →
      (gptGo (fun r => .ok (f r)) n idx done todo).saves.map Prod.fst
        = (List.range' idx todo.length).filter
            (fun i => (i + 1) % 5 == 0 || i == n - 1) := by
  intro todo
  induction todo with
  | nil => intro idx done _; simp [gptGo]
  | cons row rest ih =>
    intro idx done h
    have hrow : alreadyProcessed row = false := h row (by simp)
    have hrest : ∀ r ∈ rest, alreadyProcessed r = false :=
      fun r hr => h r (by simp [hr])
    have ihr := fun idx done => ih idx done hrest
    by_cases hc : ((idx + 1) % 5 == 0 || idx == n - 1) = true <;>
      simp [gptGo, hrow, hc, ihr, List.range'_succ, List.filter_cons]

/-! ## Helper lemmas: the about-stage loop -/

/-- Every in-loop snapshot of the about stage is tagged by a record for which
the operation succeeded: skipped records and failing records never trigger a
save. -/
lemma aboutGo_saves_tags (op : AboutRow → Except String String) (n : Nat) :
    ∀ (todo : List AboutRow) (idx : Nat) (done : List AboutRow),
      ∀ p ∈ (aboutGo op n idx done todo).saves,
        ∃ j, ∃ hj : j < todo.length, p.1 = idx + j ∧
          aboutSkip todo[j] = false ∧ ∃ v, op todo[j] = .ok v := by
  intro todo
  induction todo with
  | nil => intro idx done p hp; simp [aboutGo] at hp
  | cons row rest ih =>
    intro idx done p hp
    by_cases hskip : aboutSkip row = true
    · rw [show aboutGo op n idx done (row :: rest)
          = aboutGo op n (idx + 1) (done ++ [row]) rest by simp [aboutGo, hskip]] at hp
      obtain ⟨j, hj, htag, hsk, v, hv⟩ := ih (idx + 1) (done ++ [row]) p hp
      exact ⟨j + 1, by simpa using hj, by omega, by simpa using hsk, v, by simpa using hv⟩
    · have hskip' : aboutSkip row = false := by simpa using hskip
      cases hop : op row with
      | error e =>
        simp only [aboutGo, hskip', Bool.false_eq_true, if_false, hop] at hp
        obtain ⟨j, hj, htag, hsk, v, hv⟩ := ih (idx + 1) (done ++ [row]) p hp
        exact ⟨j + 1, by simpa using hj, by omega, by simpa using hsk, v, by simpa using hv⟩
      | ok v =>
        by_cases hc : ((idx + 1) % 5 == 0 || idx == n - 1) = true
        · simp only [aboutGo, hskip', Bool.false_eq_true, if_false, hop, hc, if_true] at hp
          rcases List.mem_cons.1 hp with hfst | hrest2
          · refine ⟨0, by simp, ?_, by simpa using hskip', v, by simpa using hop⟩
            rw [hfst]; omega
          · obtain ⟨j, hj, htag, hsk, w, hw⟩ :=
              ih (idx + 1) (done ++ [{ row with about_section := some v }]) p hrest2
            exact ⟨j + 1, by simpa using hj, by omega, by simpa using hsk, w, by simpa using hw⟩
        · simp only [aboutGo, hskip', Bool.false_eq_true, if_false, hop, hc] at hp
          obtain ⟨j, hj, htag, hsk, w, hw⟩ :=
            ih (idx + 1) (done ++ [{ row with about_section := some v }]) p hp
          exact ⟨j + 1, by simpa using hj, by omega, by simpa using hsk, w, by simpa using hw⟩

/-- Every non-skipped record of the about stage has its operation invoked:
a failure earlier in the run never stops the iteration. -/
lemma aboutGo_calls_mem (op : AboutRow → Except String String) (n : Nat) :
    ∀ (todo : List AboutRow) (idx : Nat) (done : List AboutRow)
      (j : Nat) (hj : j < todo.length),
      aboutSkip todo[j] = false →
      idx + j ∈ (aboutGo op n idx done todo).calls := by
  intro todo
  induction todo with
  | nil => intro idx done j hj; simp at hj
  | cons row rest ih =>
    intro idx done j hj hns
    cases j with
    | zero =>
      simp only [List.getElem_cons_zero] at hns
      cases hop : op row with
      | error e => simp [aboutGo, hns, hop]
      | ok v =>
        by_cases hc : ((idx + 1) % 5 == 0 || idx == n - 1) = true <;>
          simp [aboutGo, hns, hop, hc]
    | succ k =>
      simp only [List.getElem_cons_succ] at hns
      have hk : k < rest.length := by simpa using hj
      have hmem := ih (idx + 1) (done ++ [row]) k hk hns
      have heq : idx + 1 + k = idx + (k + 1) := by omega
      by_cases hskip : aboutSkip row = true
      · rw [show aboutGo op n idx done (row :: rest)
            = aboutGo op n (idx + 1) (done ++ [row]) rest by simp [aboutGo, hskip]]
        rw [← heq]; exact hmem
      · have hskip' : aboutSkip row = false := by simpa using hskip
        cases hop : op row with
        | error e =>
          simp only [aboutGo, hskip', Bool.false_eq_true, if_false, hop]
          rw [← heq]; exact List.mem_cons_of_mem _ hmem
        | ok v =>
          have hmem2 := ih (idx + 1) (done ++ [{ row with about_section := some v }]) k hk hns
          by_cases hc : ((idx + 1) % 5 == 0 || idx == n - 1) = true <;>
            · simp only [aboutGo, hskip', Bool.false_eq_true, if_false, hop, hc,
                if_true, if_false]
              rw [← heq]
              exact List.mem_cons_of_mem _ hmem2

/-! ## Helper lemmas: about-section fallback ordering -/

lemma findAboutSection_append_none :
    ∀ (pre rest : List PageSection),
      (∀ x ∈ pre, sectionAboutText x = none) →
      findAboutSection (pre ++ rest) = findAboutSection rest := by
  intro pre
  induction pre with
  | nil => intro rest _; simp
  | cons s t ih =>
    intro rest h
    have hs : sectionAboutText s = none := h s (by simp)
    have ht : ∀ x ∈ t, sectionAboutText x = none := fun x hx => h x (by simp [hx])
    simp [findAboutSection, hs, ih rest ht]

example : safe_get_text { text := some " ", attrs := [] } = "" := by decide
example : safe_get_text { text := some "", attrs := [] } = "N/A" := by decide
example : extract_certifications
    [{ text := some "A", attrs := [] }, { text := some " ", attrs := [] },
     { text := some "B", attrs := [] }] = "A, , B" := by decide

/-! ## Claim C10 -/

/-- C10: `process_contractors_with_gpt` unconditionally resets the
`gpt_analysis` column of every row to `"N/A"` before the already-processed
check runs, so pre-existing `gpt_analysis` values never influence the skip
decision or the output — two inputs that agree outside that column produce
identical runs, the final dataframe is the pointwise result of the operation
on the reset rows, and the operation is invoked at every index. -/
theorem C10_reset_overrides_input (op : GptRow → Except String String)
    (input input2 : List GptRow)
    (h : input.map eraseAnalysis = input2.map eraseAnalysis) :
    process_contractors_with_gpt op input = process_contractors_with_gpt op input2 ∧
    (process_contractors_with_gpt op input).df
      = input.map (fun r => stepRow op (resetRow r)) ∧
    (process_contractors_with_gpt op input).calls = List.range' 0 input.length := by
  have hcomp : ∀ l : List GptRow, l.map resetRow = (l.map eraseAnalysis).map resetRow := by
    intro l; rw [List.map_map]; rfl
  have hreset : input.map resetRow = input2.map resetRow := by
    rw [hcomp input, hcomp input2, h]
  have hall : ∀ r ∈ input.map resetRow, alreadyProcessed r = false := by
    intro r hr
    obtain ⟨s, _, rfl⟩ := List.mem_map.1 hr
    exact alreadyProcessed_resetRow s
  refine ⟨?_, ?_, ?_⟩
  · simp only [process_contractors_with_gpt, hreset]
  · simp only [process_contractors_with_gpt]
    rw [gptGo_df op _ (input.map resetRow) 0 [] hall]
    simp [List.map_map]
  · simp only [process_contractors_with_gpt]
    rw [gptGo_calls op _ (input.map resetRow) 0 [] hall]
    simp

def c10RowA : GptRow :=
  { name := "Acme Roofing", rating_stars := "4.8", certifications := "Master Elite",
    phone_number := "(555) 555-0100", about_section := "Serving since 1999",
    gpt_analysis := some "an old stored analysis" }

def c10RowB : GptRow :=
  { c10RowA with gpt_analysis := none }

/-- C10 witness: the theorem applied at two concrete one-row inputs that
differ only in the `gpt_analysis` cell. -/
theorem C10_reset_overrides_input_witness :
    [c10RowA].map eraseAnalysis = [c10RowB].map eraseAnalysis ∧
    process_contractors_with_gpt (fun _ => .ok "fresh") [c10RowA]
      = process_contractors_with_gpt (fun _ => .ok "fresh") [c10RowB] :=
  ⟨by decide,
   (C10_reset_overrides_input (fun _ => .ok "fresh") [c10RowA] [c10RowB] (by decide)).1⟩

/-! ## Claim C1 -/

def c1Input : List GptRow :=
  [{ name := "Acme Roofing", rating_stars := "4.8", certifications := "Master Elite",
     phone_number := "(555) 555-0100", about_section := "Serving since 1999",
     gpt_analysis := none }]

/-- C1: evaluation at the failing input.  A completed first run stores
`"first analysis"` in the only record; a second run on that output re-invokes
the operation for that record (its index appears in `calls`) and overwrites
the stored value — the idempotent-resume skip never fires, because the column
is reset to `"N/A"` before the check. -/
theorem C1_second_run_reinvokes :
    (process_contractors_with_gpt (fun _ => .ok "first analysis") c1Input).df.map
        (fun r => r.gpt_analysis) = [some "first analysis"] ∧
    (process_contractors_with_gpt (fun _ => .ok "second analysis")
        (process_contractors_with_gpt (fun _ => .ok "first analysis") c1Input).df).calls
      = [0] ∧
    (process_contractors_with_gpt (fun _ => .ok "second analysis")
        (process_contractors_with_gpt (fun _ => .ok "first analysis") c1Input).df).df.map
        (fun r => r.gpt_analysis) = [some "second analysis"] := by
  decide

/-! ## Claim C2 -/

def c2Row : GptRow :=
  { name := "Roofer", rating_stars := "5.0", certifications := "N/A",
    phone_number := "N/A", about_section := "N/A", gpt_analysis := none }

def c2Input : List GptRow := List.replicate 7 c2Row

/-- C2 counterexample: on a 7-record store with batch size 5 the code persists
3 snapshots (after record 5, after record 7, and the unconditional final save
after the loop), not exactly 2 as claimed. -/
theorem C2_three_saves_not_two :
    (process_contractors_with_gpt (fun _ => .ok "done") c2Input).saves.length = 3 ∧
    (3 : Nat) ≠ 2 := by
  decide

/-- C2 amended: for any 7-record store and any operation that succeeds on
every record, the persisted snapshots are tagged exactly `[4, 6, 7]` — after
record 5 (index 4), after record 7 (index 6), and the unconditional final
save after the loop (tagged with the row count 7). -/
theorem C2_saves_of_seven_records (f : GptRow → String) (rows : List GptRow)
    (h : rows.length = 7) :
    (process_contractors_with_gpt (fun r => .ok (f r)) rows).saves.map Prod.fst
      = [4, 6, 7] := by
  have hall : ∀ r ∈ rows.map resetRow, alreadyProcessed r = false := by
    intro r hr
    obtain ⟨s, _, rfl⟩ := List.mem_map.1 hr
    exact alreadyProcessed_resetRow s
  simp only [process_contractors_with_gpt, List.map_append]
  rw [gptGo_saves_ok f _ (rows.map resetRow) 0 [] hall]
  simp [List.length_map, h]
  decide

/-- C2 amended witness: the amended theorem applied at a concrete 7-record
store. -/
theorem C2_saves_of_seven_records_witness :
    c2Input.length = 7 ∧
    (process_contractors_with_gpt (fun r => .ok r.name) c2Input).saves.map Prod.fst
      = [4, 6, 7] :=
  ⟨by decide, C2_saves_of_seven_records (fun r => r.name) c2Input (by decide)⟩

/-! ## Claim C3 -/

def c3Item : ListingItem :=
  { nameEl := none, linkEl := none, starsEl := none, certEls := [],
    phonePrimary := some { text := some "   ", attrs := [] }, phoneAlt := none }

/-- C3 counterexample: text retrieval on an element whose text is
whitespace-only yields the empty string, not the sentinel (the Python
truthiness guard only catches the empty string, and `.strip()` then erases the
whitespace); and a listing record built from an item whose phone element holds
whitespace-only text stores that whitespace verbatim — a field value that is
empty after trimming and is not `"N/A"`. -/
theorem C3_whitespace_not_sentinel :
    safe_get_text { text := some " ", attrs := [] } = "" ∧
    ("" : String) ≠ "N/A" ∧
    (scrape_listing_item c3Item).map (fun c => c.phone_number) = some "   " ∧
    pyStrip "   " = "" ∧
    ("   " : String) ≠ "N/A" := by
  decide

/-- C3 amended: text retrieval substitutes the sentinel exactly when the
element is stale or its text is the empty string; non-empty text is returned
stripped, so whitespace-only text resolves to the empty string rather than the
sentinel; and the primary phone path stores the element's raw text unchanged
whenever it does not contain the `"Phone Number:"` marker, whitespace
included. -/
theorem C3_text_retrieval_amended :
    (∀ a : List (String × String), safe_get_text { text := none, attrs := a } = "N/A") ∧
    (∀ a : List (String × String), safe_get_text { text := some "", attrs := a } = "N/A") ∧
    (∀ (t : String) (a : List (String × String)), t ≠ "" →
       safe_get_text { text := some t, attrs := a } = pyStrip t) ∧
    (∀ (item : ListingItem) (el : Element) (t : String),
       item.phonePrimary = some el → el.text = some t →
       strContains t "Phone Number:" = false →
       (scrape_listing_item item).map (fun c => c.phone_number) = some t) := by
  refine ⟨fun a => rfl, fun a => rfl, fun t a ht => by simp [safe_get_text, ht], ?_⟩
  intro item el t hp ht hs
  simp [scrape_listing_item, hp, ht, hs]

/-- C3 amended witness: the amended theorem applied at a whitespace-only text
and at a concrete listing item. -/
theorem C3_text_retrieval_amended_witness :
    safe_get_text { text := some "  x  ", attrs := [] } = pyStrip "  x  " ∧
    (scrape_listing_item c3Item).map (fun c => c.phone_number) = some "   " :=
  ⟨(C3_text_retrieval_amended.2.2.1 "  x  " [] (by decide)),
   C3_text_retrieval_amended.2.2.2 c3Item { text := some "   ", attrs := [] } "   "
     rfl rfl (by decide)⟩

/-! ## Claim C4 -/

/-- The pagination loop reaches a terminal state within the fuel bound and
performs a bounded number of page loads. -/
lemma scrapeGo_total (pages : Nat → Page) (max_pages : Nat) :
    ∀ (fuel cp : Nat) (acc : List ContractorData) (loads : Nat),
      max_pages + 2 ≤ fuel + cp → cp ≤ max_pages + 1 →
      ∃ r, scrapeGo pages max_pages fuel cp acc loads = some r ∧
        r.2 ≤ loads + (max_pages - cp) := by
  intro fuel
  induction fuel with
  | zero => intro cp acc loads h1 h2; omega
  | succ fuel ih =>
    intro cp acc loads h1 h2
    by_cases hcp : cp > max_pages
    · exact ⟨(acc, loads), by simp [scrapeGo, hcp], by omega⟩
    · by_cases hitems : (pages cp).items.isEmpty
      · exact ⟨(acc, loads), by simp [scrapeGo, hcp, hitems], by omega⟩
      · cases hbtn : (pages cp).nextBtn with
        | none =>
          refine ⟨(acc ++ (pages cp).items.filterMap scrape_listing_item, loads),
            ?_, by omega⟩
          simp [scrapeGo, hcp, hitems, hbtn]
        | some btn =>
          by_cases hcond :
              safe_get_attribute (some btn) "disabled" ≠ some "true" ∧ cp < max_pages
          · by_cases hclick : (pages cp).clickOk
            · obtain ⟨r, hr, hle⟩ :=
                ih (cp + 1) (acc ++ (pages cp).items.filterMap scrape_listing_item)
                  (loads + 1) (by omega) (by omega)
              refine ⟨r, ?_, by omega⟩
              rw [← hr]
              simp [scrapeGo, hcp, hitems, hbtn, hcond, hclick]
            · refine ⟨(acc ++ (pages cp).items.filterMap scrape_listing_item, loads),
                ?_, by omega⟩
              simp [scrapeGo, hcp, hitems, hbtn, hcond, hclick]
          · refine ⟨(acc ++ (pages cp).items.filterMap scrape_listing_item, loads),
              ?_, by omega⟩
            simp [scrapeGo, hcp, hitems, hbtn, hcond]

/-- C4: for every `max_pages = N ≥ 1` and every behaviour of the site — next
control present but disabled everywhere, no next control locatable, pages with
zero listing items, all included — the pagination walker reaches a terminal
state within the `N + 1` fuel bound (it always halts) and performs at most `N`
page loads. -/
theorem C4_pagination_bounded (pages : Nat → Page) (navOk : Bool)
    (max_pages : Nat) (h : 1 ≤ max_pages) :
    ∃ r, scrape_contractor_info pages navOk max_pages = some r ∧
      r.2 ≤ max_pages := by
  cases navOk with
  | false => exact ⟨([], 0), by simp [scrape_contractor_info], by omega⟩
  | true =>
    obtain ⟨r, hr, hle⟩ :=
      scrapeGo_total pages max_pages (max_pages + 1) 1 [] 1 (by omega) (by omega)
    refine ⟨r, ?_, by omega⟩
    simpa [scrape_contractor_info] using hr

def c4Item : ListingItem :=
  { nameEl := none, linkEl := none, starsEl := none, certEls := [],
    phonePrimary := none, phoneAlt := none }

def c4Page : Page :=
  { items := [c4Item],
    nextBtn := some { text := some "Next", attrs := [("disabled", "true")] },
    clickOk := true }

/-- C4 witness: the theorem applied at a site whose next control is present
but disabled on every page, with `max_pages = 3`. -/
theorem C4_pagination_bounded_witness :
    (1 : Nat) ≤ 3 ∧
    ∃ r, scrape_contractor_info (fun _ => c4Page) true 3 = some r ∧ r.2 ≤ 3 :=
  ⟨by decide, C4_pagination_bounded (fun _ => c4Page) true 3 (by decide)⟩

/-! ## Claim C5 -/

def c5Input : List AboutRow :=
  [{ name := "Acme Roofing", page_link := "https://example.com/acme",
     about_section := none }]

/-- C5 counterexample: in the detail-extraction stage, a per-record failure at
record index 0 produces no immediate persisted snapshot — the only save of the
run is the unconditional final one (tagged with the row count 1).  The claimed
defensive checkpoint exists only in the analysis stage. -/
theorem C5_extract_stage_no_defensive_save :
    (process_contractors_file (fun _ => .error "boom") c5Input).saves.map Prod.fst
      = [1] ∧
    0 ∉ (process_contractors_file (fun _ => .error "boom") c5Input).saves.map Prod.fst := by
  decide

/-- C5 amended: when the per-record operation fails inside the loop, both
stages catch the failure and continue with the next record (no record's
failure aborts the run), but only the analysis stage persists the row-store
immediately as a defensive checkpoint; the detail-extraction stage's handler
only logs — the failing record's index is never among the saved-snapshot
tags. -/
theorem C5_per_record_failure_amended
    (opG : GptRow → Except String String) (inputG : List GptRow)
    (i : Nat) (hi : i < inputG.length) (e : String)
    (hfail : opG (resetRow inputG[i]) = .error e)
    (opA : AboutRow → Except String String) (inputA : List AboutRow)
    (k : Nat) (hk : k < inputA.length) (e2 : String)
    (hfail2 : opA (aboutReset inputA[k]) = .error e2) :
    (∃ snap, (i, snap) ∈ (process_contractors_with_gpt opG inputG).saves) ∧
    (∀ j, j < inputG.length → j ∈ (process_contractors_with_gpt opG inputG).calls) ∧
    (k ∉ (process_contractors_file opA inputA).saves.map Prod.fst) ∧
    (∀ j, (hj : j < inputA.length) → aboutSkip inputA[j] = false →
       j ∈ (process_contractors_file opA inputA).calls) := by
  have hallG : ∀ r ∈ inputG.map resetRow, alreadyProcessed r = false := by
    intro r hr
    obtain ⟨s, _, rfl⟩ := List.mem_map.1 hr
    exact alreadyProcessed_resetRow s
  refine ⟨?_, ?_, ?_, ?_⟩
  · have hi' : i < (inputG.map resetRow).length := by simpa using hi
    have hop : opG (inputG.map resetRow)[i] = .error e := by
      simpa [List.getElem_map] using hfail
    obtain ⟨snap, hsnap⟩ :=
      gptGo_save_of_error opG (inputG.map resetRow).length (inputG.map resetRow)
        0 [] hallG i hi' e hop
    refine ⟨snap, ?_⟩
    simp only [process_contractors_with_gpt]
    exact List.mem_append_left _ (by simpa using hsnap)
  · intro j hj
    simp only [process_contractors_with_gpt]
    rw [gptGo_calls opG _ (inputG.map resetRow) 0 [] hallG]
    simp only [List.length_map]
    exact List.mem_range'.2 ⟨j, hj, by omega⟩
  · intro hmem
    simp only [process_contractors_file, List.map_append] at hmem
    rcases List.mem_append.1 hmem with hin | hfin
    · obtain ⟨p, hp, hfst⟩ := List.mem_map.1 hin
      obtain ⟨j, hj, htag, hskip, v, hok⟩ :=
        aboutGo_saves_tags opA (inputA.map aboutReset).length
          (inputA.map aboutReset) 0 [] p hp
      have hjk : j = k := by omega
      subst hjk
      have : opA (aboutReset inputA[j]) = .ok v := by
        simpa [List.getElem_map] using hok
      rw [hfail2] at this
      exact Except.noConfusion this
    · have : k = (inputA.map aboutReset).length := by simpa using hfin
      simp only [List.length_map] at this
      omega
  · intro j hj hns
    simp only [process_contractors_file]
    have hj' : j < (inputA.map aboutReset).length := by simpa using hj
    have hns' : aboutSkip (inputA.map aboutReset)[j] = false := by
      simpa [List.getElem_map, aboutSkip, aboutReset] using hns
    have := aboutGo_calls_mem opA (inputA.map aboutReset).length
      (inputA.map aboutReset) 0 [] j hj' hns'
    simpa using this

def c5GptInput : List GptRow :=
  [{ name := "Acme Roofing", rating_stars := "4.8", certifications := "Master Elite",
     phone_number := "(555) 555-0100", about_section := "Serving since 1999",
     gpt_analysis := none }]

/-- C5 amended witness: the amended theorem applied with a one-record store in
each stage and an operation that fails on every record. -/
theorem C5_per_record_failure_amended_witness :
    (∃ snap, (0, snap) ∈ (process_contractors_with_gpt (fun _ => .error "x") c5GptInput).saves) ∧
    0 ∉ (process_contractors_file (fun _ => .error "y") c5Input).saves.map Prod.fst := by
  have h := C5_per_record_failure_amended (fun _ => .error "x") c5GptInput 0 (by decide) "x" rfl
    (fun _ => .error "y") c5Input 0 (by decide) "y" rfl
  exact ⟨h.1, h.2.2.1⟩

/-! ## Claim C6 -/

lemma safe_navigate_attempts_le :
    ∀ os : List NavAttempt, (safe_navigate os).2.1 ≤ os.length := by
  intro os
  induction os with
  | nil => simp [safe_navigate]
  | cons o rest ih =>
    cases o with
    | success => simp [safe_navigate]
    | listingTimeout => simp [safe_navigate]; omega
    | transportError =>
      by_cases h : rest.isEmpty
      · simp [safe_navigate, h]
      · simp [safe_navigate, h]
        omega

lemma safe_navigate_false_iff :
    ∀ os : List NavAttempt,
      ((safe_navigate os).1 = false ↔ NavAttempt.success ∉ os) := by
  intro os
  induction os with
  | nil => simp [safe_navigate]
  | cons o rest ih =>
    cases o with
    | success => simp [safe_navigate]
    | listingTimeout => simpa [safe_navigate] using ih
    | transportError =>
      by_cases h : rest.isEmpty
      · have : rest = [] := by simpa [List.isEmpty_iff] using h
        subst this
        simp [safe_navigate]
      · have h' : rest.isEmpty = false := by simpa using h
        simp only [safe_navigate, h', Bool.false_eq_true, if_false]
        rw [ih]
        simp

/-- C6: the navigator issues at most `max_retries` page-load attempts (the
outcome list has one entry per available attempt, `max_retries = 3` by
default); it returns failure exactly when no attempt in the list succeeds;
after a transport-level failure that is not the final attempt it sleeps the
fixed 5-unit backoff before the next attempt; and a transport failure on the
final attempt returns failure immediately with no backoff. -/
theorem C6_safe_navigate_retry (os : List NavAttempt) :
    (safe_navigate os).2.1 ≤ os.length ∧
    ((safe_navigate os).1 = false ↔ NavAttempt.success ∉ os) ∧
    (∀ rest : List NavAttempt, rest ≠ [] →
       safe_navigate (NavAttempt.transportError :: rest)
         = ((safe_navigate rest).1, (safe_navigate rest).2.1 + 1,
            5 :: (safe_navigate rest).2.2)) ∧
    safe_navigate [NavAttempt.transportError] = (false, 1, []) := by
  refine ⟨safe_navigate_attempts_le os, safe_navigate_false_iff os, ?_, rfl⟩
  intro rest hrest
  cases rest with
  | nil => exact absurd rfl hrest
  | cons o t => simp [safe_navigate]

/-- C6 witness: the theorem applied at the outcome list `[transportError,
success]` of length 2: at most 2 attempts are made, the run does not return
failure, and the non-final transport error sleeps the 5-unit backoff. -/
theorem C6_safe_navigate_retry_witness :
    (safe_navigate [NavAttempt.transportError, NavAttempt.success]).2.1 ≤ 2 ∧
    safe_navigate [NavAttempt.transportError, NavAttempt.success]
      = ((safe_navigate [NavAttempt.success]).1,
         (safe_navigate [NavAttempt.success]).2.1 + 1,
         5 :: (safe_navigate [NavAttempt.success]).2.2) :=
  ⟨(C6_safe_navigate_retry [NavAttempt.transportError, NavAttempt.success]).1,
   (C6_safe_navigate_retry []).2.2.1 [NavAttempt.success] (by decide)⟩

/-! ## Claim C7 -/

lemma findAboutSection_none :
    ∀ l : List PageSection, (∀ x ∈ l, sectionAboutText x = none) →
      findAboutSection l = none := by
  intro l h
  have := findAboutSection_append_none l [] h
  simpa using this

/-- C7: when the canonical about locator finds no element but some structural
section has a heading containing `"about"` case-insensitively and a non-empty
paragraph list (and every earlier section fails the test), the extractor
returns the joined paragraph text of that section; only when the section scan
fails everywhere does it fall back to the long-paragraph keyword scan, and
only when that also fails does it return the sentinel `"N/A"`. -/
theorem C7_about_fallback_order (pg : DetailPage)
    (hnav : pg.navOk = true) (hprim : pg.primaryAbout = none) :
    (∀ (pre : List PageSection) (s : PageSection) (post : List PageSection),
       pg.sections = pre ++ s :: post →
       (∀ x ∈ pre, sectionAboutText x = none) →
       s.headings.any (fun h => strContains (pyLower (safe_get_text h)) "about") = true →
       s.paragraphs ≠ [] →
       extract_about_section pg
         = String.intercalate "\n" (s.paragraphs.map safe_get_text)) ∧
    ((∀ x ∈ pg.sections, sectionAboutText x = none) →
       (∀ t, findLongParagraph pg.allParagraphs = some t →
          extract_about_section pg = t) ∧
       (findLongParagraph pg.allParagraphs = none →
          extract_about_section pg = "N/A")) := by
  constructor
  · intro pre s post hsec hpre hany hpar
    have hsome : sectionAboutText s
        = some (String.intercalate "\n" (s.paragraphs.map safe_get_text)) := by
      have hne : s.paragraphs.isEmpty = false := by
        cases hp : s.paragraphs with
        | nil => exact absurd hp hpar
        | cons a b => simp
      simp [sectionAboutText, hany, hne]
    have hfind : findAboutSection pg.sections
        = some (String.intercalate "\n" (s.paragraphs.map safe_get_text)) := by
      rw [hsec, findAboutSection_append_none pre (s :: post) hpre]
      simp [findAboutSection, hsome]
    simp [extract_about_section, hnav, hprim, hfind]
  · intro hall
    have hfind : findAboutSection pg.sections = none := findAboutSection_none _ hall
    constructor
    · intro t ht
      simp [extract_about_section, hnav, hprim, hfind, ht]
    · intro ht
      simp [extract_about_section, hnav, hprim, hfind, ht]

def c7Section : PageSection :=
  { headings := [{ text := some "About Us", attrs := [] }],
    paragraphs := [{ text := some "We roof homes.", attrs := [] },
                   { text := some "Since 1999.", attrs := [] }] }

def c7Page : DetailPage :=
  { navOk := true, primaryAbout := none, sections := [c7Section],
    allParagraphs := [] }

/-- C7 witness: the theorem applied at a concrete page whose only section has
the heading `"About Us"` and two paragraphs; the extractor returns their
joined text, not the sentinel. -/
theorem C7_about_fallback_order_witness :
    extract_about_section c7Page = "We roof homes.\nSince 1999." ∧
    "We roof homes.\nSince 1999." ≠ "N/A" := by
  have h := (C7_about_fallback_order c7Page rfl rfl).1 [] c7Section [] rfl
    (by intro x hx; simp at hx) (by decide) (by decide)
  rw [h]
  constructor
  · decide
  · decide

/-! ## Claim C8 -/

/-- C8: the analysis call returns the collaborator's free-form text when the
response status is 200, and returns exactly the sentinel string
`"Error in API call"` on any non-200 status or transport exception (it is a
total function, so nothing raises past the call site); in particular, when
the collaborator answers HTTP 500 every record's analysis field becomes
`"Error in API call"` and the run still invokes the operation at every
index. -/
theorem C8_api_error_sentinel :
    (∀ a : String, analyze_contractor_with_gpt (.response 200 (some a)) = a) ∧
    (∀ (s : Nat) (c : Option String), s ≠ 200 →
       analyze_contractor_with_gpt (.response s c) = "Error in API call") ∧
    (∀ m : String, analyze_contractor_with_gpt (.exception m) = "Error in API call") ∧
    (∀ input : List GptRow,
       (process_contractors_with_gpt
           (fun _ => .ok (analyze_contractor_with_gpt (.response 500 none))) input).df
         = input.map (fun r => { resetRow r with gpt_analysis := some "Error in API call" }) ∧
       (process_contractors_with_gpt
           (fun _ => .ok (analyze_contractor_with_gpt (.response 500 none))) input).calls
         = List.range' 0 input.length) := by
  refine ⟨fun a => rfl, ?_, fun m => rfl, ?_⟩
  · intro s c hs
    simp [analyze_contractor_with_gpt, hs]
  · intro input
    have hall : ∀ r ∈ input.map resetRow, alreadyProcessed r = false := by
      intro r hr
      obtain ⟨x, _, rfl⟩ := List.mem_map.1 hr
      exact alreadyProcessed_resetRow x
    constructor
    · simp only [process_contractors_with_gpt]
      rw [gptGo_df _ _ (input.map resetRow) 0 [] hall]
      rw [List.nil_append, List.map_map]
      rfl
    · simp only [process_contractors_with_gpt]
      rw [gptGo_calls _ _ (input.map resetRow) 0 [] hall]
      simp

def c8Input : List GptRow :=
  [{ name := "Acme Roofing", rating_stars := "4.8", certifications := "Master Elite",
     phone_number := "(555) 555-0100", about_section := "Serving since 1999",
     gpt_analysis := none }]

/-- C8 witness: the theorem applied at status 500 and at a concrete one-record
store. -/
theorem C8_api_error_sentinel_witness :
    analyze_contractor_with_gpt (.response 500 none) = "Error in API call" ∧
    (process_contractors_with_gpt
        (fun _ => .ok (analyze_contractor_with_gpt (.response 500 none))) c8Input).df
      = c8Input.map (fun r => { resetRow r with gpt_analysis := some "Error in API call" }) :=
  ⟨C8_api_error_sentinel.2.1 500 none (by decide),
   (C8_api_error_sentinel.2.2.2 c8Input).1⟩

/-! ## Claim C9 -/

def c9A : Element := { text := some "Master Elite", attrs := [] }
def c9W : Element := { text := some "   ", attrs := [] }
def c9B : Element := { text := some "Certified Installer", attrs := [] }

/-- C9 counterexample: an element whose text is whitespace-only resolves to
the empty string, which the filter keeps (it removes only results equal to
`"N/A"`), so three matched elements — one of them whitespace-only — join to a
string with an empty middle entry, not to the two valid entries the claim's
"filters out ... or is empty" would give. -/
theorem C9_empty_not_filtered :
    extract_certifications [c9A, c9W, c9B]
      = "Master Elite, , Certified Installer" ∧
    ("Master Elite, , Certified Installer" : String)
      ≠ "Master Elite, Certified Installer" := by
  decide

/-- C9 amended: the certifications extractor filters out exactly the elements
whose text resolves to the sentinel `"N/A"` (empty-string results are kept)
and joins the remainder with `", "`; an empty collection, or one whose every
element resolves to the sentinel, yields the sentinel rather than an empty
string; and three matched elements of which exactly the middle one resolves
to the sentinel produce the two valid entries joined by `", "`. -/
theorem C9_certifications_amended :
    (extract_certifications [] = "N/A") ∧
    (∀ els : List Element, (∀ e ∈ els, safe_get_text e = "N/A") →
       extract_certifications els = "N/A") ∧
    (∀ a b c : Element, safe_get_text a ≠ "N/A" → safe_get_text b = "N/A" →
       safe_get_text c ≠ "N/A" →
       extract_certifications [a, b, c]
         = String.intercalate ", " [safe_get_text a, safe_get_text c]) := by
  refine ⟨rfl, ?_, ?_⟩
  · intro els h
    cases els with
    | nil => rfl
    | cons x xs =>
      have hfilter : (x :: xs).filter (fun c => safe_get_text c != "N/A") = [] := by
        rw [List.filter_eq_nil_iff]
        intro a ha
        simp [h a ha]
      simp [extract_certifications, hfilter]
  · intro a b c ha hb hc
    simp [extract_certifications, List.filter_cons, ha, hb, hc]

/-- C9 amended witness: the amended theorem applied at three concrete
elements, the middle one stale (resolving to the sentinel). -/
theorem C9_certifications_amended_witness :
    safe_get_text c9A ≠ "N/A" ∧
    extract_certifications [c9A, { text := none, attrs := [] }, c9B]
      = String.intercalate ", " [safe_get_text c9A, safe_get_text c9B] :=
  ⟨by decide,
   C9_certifications_amended.2.2 c9A { text := none, attrs := [] } c9B
     (by decide) (by decide) (by decide)⟩
